import Mathlib

/-!
# Verification of the anchor-bridge consensus core

A shallow embedding, in Lean 4, of the Solana `anchor-bridge` program
(`programs/anchor-bridge/src`): the guardian-set / consensus / integrity /
replay-protection engine of a cross-chain message bridge.  Machine integers
are modelled as `Nat` (with explicit `% 2 ^ w` where the source truncates),
account byte arrays as `List Nat` of byte values, fallible entry points as
`Except ProgErr`.  A whole `post_vaa` / `publish_message` instruction is a
function from the pre-state of the touched accounts to `Except` of the
post-state: Solana discards all account writes of an instruction that
returns an error, so returning `Except.error` with no state models the
transactional (fail-atomic) execution of an instruction.
-/

namespace Wormhole

/-! ## Byte and word helpers -/

/-- Big-endian serialization of a `u32`, as `byteorder::WriteBytesExt::write_u32::<BigEndian>`
produces it: four bytes, most significant first. -/
def u32BE (x : Nat) : List Nat :=
  [x / 2 ^ 24 % 256, x / 2 ^ 16 % 256, x / 2 ^ 8 % 256, x % 256]

/-- Little-endian decoding of a byte list into an unsigned integer
(`u64::from_le_bytes` on an 8-byte slice). -/
def u64FromLEBytes (l : List Nat) : Nat :=
  l.foldr (fun b acc => b % 256 + acc * 256) 0

/-- The Rust cast `i64 as u32`: the low 32 bits of the two's-complement
representation, i.e. the mathematical value modulo `2 ^ 32`. -/
def u32OfI64 (x : Int) : Nat :=
  (x % (2 ^ 32 : Int)).toNat

/-! ## Keccak-256

The `sha3::Keccak256` hasher used by `check_integrity` (original Keccak
padding `0x01`, rate 1088 bits, 256-bit digest), implemented over `Nat`
lanes reduced modulo `2 ^ 64`. -/

/-- Rotate a 64-bit lane left by `n` (`0 ≤ n < 64`) bits. -/
def rotl64 (w n : Nat) : Nat :=
  ((w <<< n) ||| (w >>> (64 - n))) % 2 ^ 64

/-- Lane `(x, y)` of a Keccak state stored as a flat 25-element list. -/
def lane (st : List Nat) (x y : Nat) : Nat :=
  st.getD (x + 5 * y) 0

/-- Keccak θ step. -/
def theta (st : List Nat) : List Nat :=
  let c := fun x => lane st x 0 ^^^ lane st x 1 ^^^ lane st x 2 ^^^ lane st x 3 ^^^ lane st x 4
  let d := fun x => c ((x + 4) % 5) ^^^ rotl64 (c ((x + 1) % 5)) 1
  (List.range 25).map (fun i => st.getD i 0 ^^^ d (i % 5))

/-- Rotation offsets of the ρ step, stored flat at index `x + 5 * y` and
generated from the defining recurrence: starting at lane (1, 0), the t-th
visited lane gets offset `(t + 1)(t + 2)/2 mod 64` and the walk moves by
`(x, y) ↦ (y, 2x + 3y mod 5)`; lane (0, 0) keeps offset 0. -/
def rhoOffsets : List Nat :=
  (((List.range 24).foldl
      (fun acc t =>
        ((acc.1.set (acc.2.1 + 5 * acc.2.2) ((t + 1) * (t + 2) / 2 % 64)),
          acc.2.2, (2 * acc.2.1 + 3 * acc.2.2) % 5))
      (List.replicate 25 0, 1, 0))).1

/-- Combined ρ and π steps: lane `(x, y)` is rotated by its offset and moved
to position `(y, 2x + 3y mod 5)`. -/
def rhoPi (st : List Nat) : List Nat :=
  (List.range 25).foldl
    (fun acc i =>
      let x := i % 5
      let y := i / 5
      acc.set (y + 5 * ((2 * x + 3 * y) % 5)) (rotl64 (lane st x y) (rhoOffsets.getD i 0)))
    (List.replicate 25 0)

/-- Keccak χ step. -/
def chi (st : List Nat) : List Nat :=
  (List.range 25).map (fun i =>
    let x := i % 5
    let y := i / 5
    lane st x y ^^^ ((lane st ((x + 1) % 5) y ^^^ (2 ^ 64 - 1)) &&& lane st ((x + 2) % 5) y))

/-- Keccak ι step: fold the round constant into lane `(0, 0)`. -/
def iotaStep (st : List Nat) (rc : Nat) : List Nat :=
  st.set 0 (st.getD 0 0 ^^^ rc)

/-- Bit `rc(t)` of the Keccak round-constant LFSR
(`x^8 + x^6 + x^5 + x^4 + 1` over GF(2), seeded with 1). -/
def rcBit (t : Nat) : Nat :=
  ((List.range (t % 255)).foldl
    (fun r _ => ((r * 2) ^^^ (r / 128 * 0x71)) % 256) 1) % 2

/-- The i-th round constant of Keccak-f[1600], assembled from the LFSR bits
at positions `2^j - 1` of the lane. -/
def roundConstant (i : Nat) : Nat :=
  (List.range 7).foldl (fun acc j => acc + rcBit (7 * i + j) * 2 ^ (2 ^ j - 1)) 0

/-- The 24 round constants of Keccak-f[1600]. -/
def roundConstants : List Nat :=
  (List.range 24).map roundConstant

/-- One round of Keccak-f[1600]. -/
def keccakRound (st : List Nat) (rc : Nat) : List Nat :=
  iotaStep (chi (rhoPi (theta st))) rc

/-- The full Keccak-f[1600] permutation (24 rounds). -/
def keccakF (st : List Nat) : List Nat :=
  roundConstants.foldl keccakRound st

/-- Split a byte list into chunks of `n + 1` bytes (the last may be shorter);
structural recursion on a fuel argument so that the kernel can evaluate it. -/
def toChunksFuel : Nat → Nat → List Nat → List (List Nat)
  | 0, _, _ => []
  | _, _, [] => []
  | fuel + 1, n, a :: t => ((a :: t).take (n + 1)) :: toChunksFuel fuel n ((a :: t).drop (n + 1))

/-- Split a byte list into chunks of `n + 1` bytes (the last may be shorter). -/
def toChunks (n : Nat) (l : List Nat) : List (List Nat) :=
  toChunksFuel l.length n l

/-- Original Keccak multi-rate padding (`pad10*1` with domain byte `0x01`),
for rate 136 bytes. -/
def padKeccak (m : List Nat) : List Nat :=
  let padLen := 136 - m.length % 136
  if padLen = 1 then m ++ [0x81]
  else m ++ [0x01] ++ List.replicate (padLen - 2) 0 ++ [0x80]

/-- Decode one little-endian 64-bit lane from up to 8 bytes. -/
def bytesToWordLE (l : List Nat) : Nat :=
  l.foldr (fun b acc => b % 256 + acc * 256) 0

/-- Encode a 64-bit lane as 8 little-endian bytes. -/
def wordToBytesLE (w : Nat) : List Nat :=
  [w % 256, w / 2 ^ 8 % 256, w / 2 ^ 16 % 256, w / 2 ^ 24 % 256,
   w / 2 ^ 32 % 256, w / 2 ^ 40 % 256, w / 2 ^ 48 % 256, w / 2 ^ 56 % 256]

/-- XOR a 136-byte rate block into the first 17 lanes of the state. -/
def xorBlock (st : List Nat) (block : List Nat) : List Nat :=
  let ws := (toChunks 7 block).map bytesToWordLE
  (List.range 25).map (fun i => st.getD i 0 ^^^ ws.getD i 0)

/-- Keccak-256 of a byte list: absorb the padded message at rate 136,
squeeze the first 32 bytes of the final state. -/
def keccak256 (m : List Nat) : List Nat :=
  let blocks := toChunks 135 (padKeccak m)
  let final := blocks.foldl (fun st b => keccakF (xorBlock st b)) (List.replicate 25 0)
  ((final.take 4).map wordToBytesLE).flatten

/-! ## Data model (lib.rs)

Public keys (`Pubkey`) are 32-byte values, modelled as `List Nat`. -/

/-- Error type: the program's `ErrorCode` variants together with the
`solana_program::ProgramError` variants the source returns. -/
inductive ProgErr where
  | IoError
  | InvalidSysVar
  | InsufficientFees
  | PostVAAGuardianSetExpired
  | PostVAAGuardianSetMismatch
  | PostVAAConsensusFailed
  | InvalidInstructionData
  | InvalidAccountData
  | InvalidArgument
  | InsufficientFunds
deriving DecidableEq, Repr

instance {ε α : Type} [DecidableEq ε] [DecidableEq α] : DecidableEq (Except ε α) := fun a b =>
  match a, b with
  | .ok x, .ok y => if h : x = y then isTrue (by simp [h]) else isFalse (by simp [h])
  | .error x, .error y => if h : x = y then isTrue (by simp [h]) else isFalse (by simp [h])
  | .ok _, .error _ => isFalse (by simp)
  | .error _, .ok _ => isFalse (by simp)

/-- `MAX_LEN_GUARDIAN_KEYS` (lib.rs). -/
def MAX_LEN_GUARDIAN_KEYS : Nat := 20

/-- `VAA_TX_FEE` (lib.rs): tx fee of signature checks and PostVAA. -/
def VAA_TX_FEE : Nat := 18 * 10000

/-- `GuardianSetInfo` (lib.rs).  `len_keys` is the u8 guardian-count field
read by `post_vaa`'s quorum computation (the field lives in the repository's
`types` module, which only declares data; `post_vaa.rs` is the reader). -/
structure GuardianSetInfo where
  index : Nat
  keys : List (List Nat)
  creation_time : Nat
  expiration_time : Nat
  len_keys : Nat
deriving DecidableEq, Repr

/-- `Signatures` account (lib.rs): signature-set metadata. -/
structure Signatures where
  signatures : List (List Nat)
  hash : List Nat
  guardian_set_index : Nat
deriving DecidableEq, Repr

/-- `PostedMessage` account (lib.rs).  `emitter_chain` is the `Chain` enum
value as a `Nat`. -/
structure PostedMessage where
  vaa_version : Nat
  vaa_time : Nat
  vaa_signature_account : List Nat
  submission_time : Nat
  nonce : Nat
  emitter_chain : Nat
  emitter_address : List Nat
  payload : List Nat
deriving DecidableEq, Repr

/-- `PostedMessage::default()`: all integers 0, empty byte vectors. -/
def PostedMessage.default : PostedMessage :=
  { vaa_version := 0, vaa_time := 0, vaa_signature_account := List.replicate 32 0,
    submission_time := 0, nonce := 0, emitter_chain := 0,
    emitter_address := List.replicate 32 0, payload := [] }

/-- `ClaimedVAA` account (lib.rs): record of a claimed VAA. -/
structure ClaimedVAA where
  hash : List Nat
  vaa_time : Nat
deriving DecidableEq, Repr

/-- One guardian signature inside `PostVAAData` (lib.rs, `Signature`). -/
structure GuardianSig where
  index : Nat
  r : List Nat
  s : List Nat
  v : Nat
deriving DecidableEq, Repr

/-- `PostVAAData` (lib.rs): argument of the `post_vaa` instruction. -/
structure PostVAAData where
  version : Nat
  guardian_set_index : Nat
  signatures : List GuardianSig
  timestamp : Nat
  nonce : Nat
  emitter_chain : Nat
  emitter_address : List Nat
  payload : List Nat
deriving DecidableEq, Repr

/-! ## HashCodec: canonical body serialization (post_vaa.rs, check_integrity)

The `Cursor<Vec<u8>>` byte buffer is modelled as a `List Nat` accumulator;
each `write_*` call appends its bytes. -/

/-- `write_u32::<BigEndian>` on the cursor: append 4 big-endian bytes. -/
def writeU32BE (buf : List Nat) (x : Nat) : List Nat :=
  buf ++ u32BE x

/-- `write_u8` on the cursor: append one byte. -/
def writeU8 (buf : List Nat) (x : Nat) : List Nat :=
  buf ++ [x % 256]

/-- `write(&bytes)` on the cursor: append the bytes. -/
def writeBytes (buf : List Nat) (bs : List Nat) : List Nat :=
  buf ++ bs

/-- The `body` byte sequence assembled by `check_integrity`:
timestamp, nonce (u32 big-endian), emitter_chain (u8), emitter_address,
payload, in that order. -/
def serializeBody (vaa : PostVAAData) : List Nat :=
  writeBytes
    (writeBytes
      (writeU8
        (writeU32BE (writeU32BE [] vaa.timestamp) vaa.nonce)
        vaa.emitter_chain)
      vaa.emitter_address)
    vaa.payload

/-- The `body_hash` computed by `check_integrity`: Keccak-256 of the body. -/
def bodyHash (vaa : PostVAAData) : List Nat :=
  keccak256 (serializeBody vaa)

/-! ## post_vaa (post_vaa.rs) -/

/-- The accounts touched by the `post_vaa` instruction, as one pre-state.
`sig_info_key` is the public key of the signature-set account
(`sig_info.to_account_info().key`); `state_lamports` is the balance of the
bridge state account, `payer_lamports` the payer's. -/
structure PostVAAState where
  guardian_set : GuardianSetInfo
  sig_info : Signatures
  sig_info_key : List Nat
  message : PostedMessage
  claim : ClaimedVAA
  state_lamports : Nat
  payer_lamports : Nat
deriving DecidableEq, Repr

/-- `check_active` (post_vaa.rs): a guardian set must not have expired.
`now` is `clock.unix_timestamp : i64`. -/
def check_active (guardian_set : GuardianSetInfo) (now : Int) : Except ProgErr Unit :=
  if guardian_set.expiration_time ≠ 0 ∧ (guardian_set.expiration_time : Int) < now then
    .error .PostVAAGuardianSetExpired
  else
    .ok ()

/-- `check_valid_sigs` (post_vaa.rs): the signatures must be from the right
guardian set. -/
def check_valid_sigs (guardian_set : GuardianSetInfo) (sig_info : Signatures) :
    Except ProgErr Unit :=
  if sig_info.guardian_set_index ≠ guardian_set.index then
    .error .PostVAAGuardianSetMismatch
  else
    .ok ()

/-- `check_integrity` (post_vaa.rs): assembles the canonical body and hashes
it; the computed `body_hash` is bound but the function then returns `Ok(())`
without comparing it against anything. -/
def check_integrity (sig_info : Signatures) (vaa : PostVAAData) : Except ProgErr Unit :=
  let body := serializeBody vaa
  let body_hash := keccak256 body
  .ok ()

/-- `transfer_sol` (post_vaa.rs) acting on the two balances: checked
subtraction from the sender, checked u64 addition to the recipient. -/
def transfer_sol (senderBal recipientBal amount : Nat) : Except ProgErr (Nat × Nat) :=
  if senderBal < amount then
    .error .InsufficientFunds
  else if 2 ^ 64 ≤ recipientBal + amount then
    .error .InvalidArgument
  else
    .ok (senderBal - amount, recipientBal + amount)

/-- The signature count of `post_vaa`: number of signature slots holding at
least one nonzero byte, truncated by the `as u8` cast. -/
def signatureCount (sigs : List (List Nat)) : Nat :=
  (sigs.filter (fun v => decide ((v.filter (fun b => decide (b ≠ 0))).length ≠ 0))).length % 256

/-- The `required_consensus_count` computation of `post_vaa`, in expanded
form as in the source (u16 arithmetic; no intermediate exceeds `2 ^ 16` for
any u8 `len_keys`, so plain `Nat` arithmetic coincides). -/
def requiredConsensusCount (lenKeys : Nat) : Nat :=
  let len := lenKeys
  let len := (len * 10) / 3
  let len := len * 2
  len / (10 + 1)

/-- `post_vaa` (post_vaa.rs).  The three `#[access_control]` checks run
first, in attribute order; then the quorum check, the message writes, the
conditional fee refund, and the claim write.  `minBridgeBalance` is the
`MIN_BRIDGE_BALANCE` reserve constant (its exact value depends on
`size_of::<Bridge>()`, i.e. on the `types` module's `BridgeConfig` layout,
so it is kept as a parameter here).  An error return models the Solana
runtime discarding every account write of the instruction. -/
def post_vaa (minBridgeBalance : Nat) (s : PostVAAState) (now : Int) (vaa : PostVAAData) :
    Except ProgErr PostVAAState :=
  match check_active s.guardian_set now with
  | .error e => .error e
  | .ok _ =>
  match check_valid_sigs s.guardian_set s.sig_info with
  | .error e => .error e
  | .ok _ =>
  match check_integrity s.sig_info vaa with
  | .error e => .error e
  | .ok _ =>
    let signature_count := signatureCount s.sig_info.signatures
    let required_consensus_count := requiredConsensusCount s.guardian_set.len_keys
    if signature_count < required_consensus_count then
      .error .PostVAAConsensusFailed
    else
      let s1 := { s with message := { s.message with
                    vaa_version := vaa.version,
                    vaa_time := vaa.timestamp,
                    vaa_signature_account := s.sig_info_key } }
      let refund : Except ProgErr (Nat × Nat) :=
        if VAA_TX_FEE < s1.state_lamports - minBridgeBalance then
          transfer_sol s1.state_lamports s1.payer_lamports VAA_TX_FEE
        else
          .ok (s1.state_lamports, s1.payer_lamports)
      match refund with
      | .error e => .error e
      | .ok (stateBal, payerBal) =>
        .ok { s1 with
              state_lamports := stateBal,
              payer_lamports := payerBal,
              claim := { s1.claim with vaa_time := u32OfI64 now } }

/-! ## publish_message (publish_message.rs) -/

/-- `MAX_PAYLOAD_SIZE` (publish_message.rs): "Maximum size of a posted VAA".
Declared in the source; the source never reads it. -/
def MAX_PAYLOAD_SIZE : Nat := 400

/-- `size_of::<SignatureState>()` (publish_message.rs): `repr(C)` layout of
`[[u8; 65]; 20]`, `[u8; 32]`, `u32` — 1300 + 32 bytes leave the u32 field
4-byte aligned and the total a multiple of 4, so no padding is inserted. -/
def sizeOfSignatureState : Nat := 65 * MAX_LEN_GUARDIAN_KEYS + 32 + 4

/-- `size_of::<ClaimedVAA>()` (publish_message.rs): `repr(C)` layout of
`[u8; 32]`, `u32` — no padding. -/
def sizeOfClaimedVAA : Nat := 32 + 4

/-- `calculate_transfer_fee` (publish_message.rs): const fee required to
publish a message. -/
def calculate_transfer_fee : Nat :=
  sizeOfSignatureState + sizeOfClaimedVAA + VAA_TX_FEE

/-- One instruction of the surrounding transaction, as read back from the
instructions sysvar: program id, account-meta public keys, raw data bytes. -/
structure Instruction where
  program_id : List Nat
  accounts : List (List Nat)
  data : List Nat
deriving DecidableEq, Repr

/-- `solana_program::system_program::id()`: the all-zero public key. -/
def systemProgramId : List Nat := List.replicate 32 0

/-- `check_fees` (publish_message.rs).  `instrs` is the instruction list of
the current transaction (the instructions sysvar), `currentIndex` the u16
index of the currently executing instruction, `bridgeKey` the public key of
the bridge state account, `fee` the required fee.  The previous instruction
must be a well-formed system transfer of at least `fee` lamports to the
bridge.  The `(current_instruction - 1) as u8` cast of the source is the
`% 256` below. -/
def check_fees (instrs : List Instruction) (currentIndex : Nat) (bridgeKey : List Nat)
    (fee : Nat) : Except ProgErr Unit :=
  if currentIndex = 0 then
    .error .InvalidInstructionData
  else
    match instrs[(currentIndex - 1) % 256]? with
    | none => .error .InvalidAccountData
    | some transfer_ix =>
      if transfer_ix.program_id ≠ systemProgramId then
        .error .InvalidArgument
      else if transfer_ix.accounts.length ≠ 2 then
        .error .InvalidInstructionData
      else if transfer_ix.accounts.getD 1 [] ≠ bridgeKey then
        .error .InvalidArgument
      else if transfer_ix.data.length ≠ 12 then
        .error .InvalidAccountData
      else if transfer_ix.data.take 4 ≠ [2, 0, 0, 0] then
        .error .InvalidInstructionData
      else if u64FromLEBytes (transfer_ix.data.drop 4) < fee then
        .error .InsufficientFees
      else
        .ok ()

/-- Modelled from the spec: the `Chain::Solana` discriminant lives in the
repository's `types` module, which is not among the provided sources; the
spec only calls it "the given chain id" of the local chain, so the value is
an arbitrary fixed tag (no claim depends on it). -/
def chainSolana : Nat := 1

/-- The inputs `publish_message` draws from its context: the instructions
sysvar and current instruction index, the bridge state key, the emitter
public key, and the clock. -/
structure PublishContext where
  instrs : List Instruction
  current_index : Nat
  bridge_key : List Nat
  emitter_key : List Nat
  now : Int
deriving DecidableEq, Repr

/-- `publish_message` (publish_message.rs): checks the fee evidence, then
creates the message account (external create-once allocation, modelled as
always succeeding for a fresh address) and populates it.  There is no check
of `payload` against `MAX_PAYLOAD_SIZE` anywhere on this path.  Returns the
created `PostedMessage` record. -/
def publish_message (ctx : PublishContext) (message_nonce : Nat) (payload : List Nat) :
    Except ProgErr PostedMessage :=
  match check_fees ctx.instrs ctx.current_index ctx.bridge_key calculate_transfer_fee with
  | .error e => .error e
  | .ok _ =>
    .ok { PostedMessage.default with
          submission_time := u32OfI64 ctx.now,
          emitter_chain := chainSolana,
          emitter_address := ctx.emitter_key,
          nonce := message_nonce,
          payload := payload }

/-! ## Claim theorems -/

/-- C1: the claim says `post_vaa` fails with `IntegrityMismatch` whenever the
hash recomputed from the VAA body differs from `sig_info.hash`.  The code's
`check_integrity` computes the body hash and then returns `Ok(())`
unconditionally — it never reads `sig_info.hash` at all — so finalization
proceeds even on a mismatch: for the all-zero VAA below the recomputed
digest differs from the stored all-zero hash, yet the check passes. -/
theorem check_integrity_never_rejects :
    (∀ (sig_info : Signatures) (vaa : PostVAAData), check_integrity sig_info vaa = .ok ()) ∧
    bodyHash ⟨0, 0, [], 0, 0, 0, List.replicate 32 0, []⟩ ≠ List.replicate 32 0 ∧
    check_integrity ⟨[], List.replicate 32 0, 0⟩ ⟨0, 0, [], 0, 0, 0, List.replicate 32 0, []⟩
      = .ok () :=
  ⟨fun _ _ => rfl, by set_option maxRecDepth 1000000 in decide, rfl⟩

/-- C4 counterexample: with `expires_at = 5` and `now = 5` the code's
`check_active` passes (returns `Ok`), while the claim's liveness predicate
`expires_at == 0 ∨ now < expires_at` is false (so the claim would have the
call fail with `GuardianSetExpired`).  The code's comparison is
`expiration_time < now`, not `now < expiration_time` negated. -/
theorem check_active_boundary_cex :
    check_active ⟨0, [], 0, 5, 0⟩ 5 = .ok () ∧
    ¬ (((⟨0, [], 0, 5, 0⟩ : GuardianSetInfo).expiration_time = 0) ∨
        (5 : Int) < ((⟨0, [], 0, 5, 0⟩ : GuardianSetInfo).expiration_time : Int)) := by
  decide

/-- C4 (amended): the liveness check passes iff `expires_at == 0` or
`now ≤ expires_at`, and fails with `GuardianSetExpired` iff `expires_at ≠ 0`
and `expires_at < now`; so at `expires_at = T` both `now = T - 1` and
`now = T` count as active, and `now = T + 1` as expired. -/
theorem check_active_iff (gs : GuardianSetInfo) (now : Int) :
    (check_active gs now = .ok () ↔
      (gs.expiration_time = 0 ∨ now ≤ (gs.expiration_time : Int))) ∧
    (check_active gs now = .error .PostVAAGuardianSetExpired ↔
      (gs.expiration_time ≠ 0 ∧ (gs.expiration_time : Int) < now)) ∧
    check_active ⟨0, [], 0, 5, 0⟩ 4 = .ok () ∧
    check_active ⟨0, [], 0, 5, 0⟩ 5 = .ok () ∧
    check_active ⟨0, [], 0, 5, 0⟩ 6 = .error .PostVAAGuardianSetExpired := by
  refine ⟨?_, ?_, by decide, by decide, by decide⟩ <;>
    · unfold check_active
      split <;> rename_i h <;> simp_all <;> omega

/-- C5: the claim says payloads longer than 400 bytes are rejected with
`PayloadTooLarge`.  `MAX_PAYLOAD_SIZE = 400` is declared but never read:
`publish_message` performs no length check, and here a 401-byte payload
(with valid fee evidence of exactly `calculate_transfer_fee = 181372`
lamports) produces a Message record containing the oversize payload. -/
theorem publish_message_accepts_oversize_payload :
    publish_message
        ⟨[⟨systemProgramId, [List.replicate 32 7, List.replicate 32 2],
            [2, 0, 0, 0, 124, 196, 2, 0, 0, 0, 0, 0]⟩],
          1, List.replicate 32 2, List.replicate 32 3, 50⟩
        9 (List.replicate 401 7) =
      .ok { PostedMessage.default with
            submission_time := 50, emitter_chain := chainSolana,
            emitter_address := List.replicate 32 3, nonce := 9,
            payload := List.replicate 401 7 } ∧
    MAX_PAYLOAD_SIZE < (List.replicate 401 (7 : Nat)).length := by
  exact ⟨rfl, by rw [List.length_replicate]; decide⟩

/-- The spec's "present" slot count: number of signature slots that are not
all zero bytes. -/
def presentSlots (sigs : List (List Nat)) : Nat :=
  (sigs.filter (fun v => v.any (fun b => decide (b ≠ 0)))).length

theorem presentSlots_pred_eq (v : List Nat) :
    decide ((v.filter (fun b => decide (b ≠ 0))).length ≠ 0)
      = v.any (fun b => decide (b ≠ 0)) := by
  rcases hb : v.any (fun b => decide (b ≠ 0)) with _ | _
  · have hall : ∀ x ∈ v, ¬ ((fun b => decide (b ≠ 0)) x = true) := by
      intro x hx hpx
      have := (@List.any_eq_true _ (fun b => decide (b ≠ 0)) v).mpr ⟨x, hx, hpx⟩
      rw [hb] at this
      cases this
    have hf : v.filter (fun b => decide (b ≠ 0)) = [] := List.filter_eq_nil_iff.mpr hall
    rw [hf]
    rfl
  · rcases (@List.any_eq_true _ (fun b => decide (b ≠ 0)) v).mp hb with ⟨x, hxv, hx⟩
    have hmem : x ∈ v.filter (fun b => decide (b ≠ 0)) := List.mem_filter.mpr ⟨hxv, hx⟩
    have hne : (v.filter (fun b => decide (b ≠ 0))).length ≠ 0 := by
      intro h0
      rw [List.length_eq_zero] at h0
      rw [h0] at hmem
      exact absurd hmem (List.not_mem_nil x)
    exact decide_eq_true hne

/-- The `as u8` truncation in `post_vaa`'s signature count is the identity
for signature vectors of at most 255 slots, and the counted predicate
("some byte of the slot is nonzero") agrees with the spec's "not all-zero"
slot count. -/
theorem signatureCount_eq_presentSlots (sigs : List (List Nat)) (h : sigs.length ≤ 255) :
    signatureCount sigs = presentSlots sigs := by
  unfold signatureCount presentSlots
  rw [List.filter_congr (fun v _ => presentSlots_pred_eq v)]
  exact Nat.mod_eq_of_lt
    (Nat.lt_of_le_of_lt (List.length_filter_le _ _) (by omega))

/-- C2: the quorum threshold is `((n * 10) / 3) * 2 / 11` (u16 fixed-point
arithmetic, which for `n ≤ 20`—indeed for any u8 `n`—never overflows and so
agrees with `Nat` arithmetic), taking the values 0, 1, 11, 12 at n = 1, 3,
19, 20; and, when the liveness and epoch-binding checks pass, `post_vaa`
fails with `PostVAAConsensusFailed` exactly when the number of not-all-zero
signature slots is strictly below the threshold. -/
theorem post_vaa_quorum_threshold (minBal : Nat) (s : PostVAAState) (now : Int)
    (vaa : PostVAAData)
    (hact : check_active s.guardian_set now = .ok ())
    (hbind : check_valid_sigs s.guardian_set s.sig_info = .ok ())
    (hsig : s.sig_info.signatures.length ≤ 255) :
    requiredConsensusCount s.guardian_set.len_keys
        = s.guardian_set.len_keys * 10 / 3 * 2 / 11 ∧
    requiredConsensusCount 1 = 0 ∧ requiredConsensusCount 3 = 1 ∧
    requiredConsensusCount 19 = 11 ∧ requiredConsensusCount 20 = 12 ∧
    (post_vaa minBal s now vaa = .error .PostVAAConsensusFailed ↔
      presentSlots s.sig_info.signatures < requiredConsensusCount s.guardian_set.len_keys) := by
  refine ⟨rfl, rfl, rfl, rfl, rfl, ?_⟩
  rw [← signatureCount_eq_presentSlots s.sig_info.signatures hsig]
  unfold post_vaa
  simp only [hact, hbind]
  rw [show check_integrity s.sig_info vaa = .ok () from rfl]
  by_cases hq : signatureCount s.sig_info.signatures
      < requiredConsensusCount s.guardian_set.len_keys
  · simp [hq]
  · simp only [if_neg hq, iff_iff_implies_and_implies]
    refine ⟨fun hcontra => ?_, fun hcontra => absurd hcontra hq⟩
    exfalso
    revert hcontra
    split
    · rename_i e heq
      intro hco
      have he : e = ProgErr.PostVAAConsensusFailed := by
        injection hco
      subst he
      unfold transfer_sol at heq
      split at heq
      · split at heq
        · simp at heq
        · split at heq <;> simp at heq
      · simp at heq
    · rename_i p heq
      intro hco
      simp at hco

/-- C2 witness: a 3-guardian set with an empty signature vector (0 present
slots, threshold 1) is rejected for lack of consensus. -/
theorem post_vaa_quorum_threshold_witness :
    post_vaa 0
        ⟨⟨0, [], 0, 0, 3⟩, ⟨[], List.replicate 32 0, 0⟩, List.replicate 32 0,
          PostedMessage.default, ⟨List.replicate 32 0, 0⟩, 0, 0⟩
        0 ⟨0, 0, [], 0, 0, 0, [], []⟩ = .error .PostVAAConsensusFailed :=
  ((post_vaa_quorum_threshold 0
      ⟨⟨0, [], 0, 0, 3⟩, ⟨[], List.replicate 32 0, 0⟩, List.replicate 32 0,
        PostedMessage.default, ⟨List.replicate 32 0, 0⟩, 0, 0⟩
      0 ⟨0, 0, [], 0, 0, 0, [], []⟩
      (by decide) (by decide) (by decide)).2.2.2.2.2).mpr (by decide)

/-- C3: the claim says a second `post_vaa` for the same message hash and
guardian-set epoch fails with `AlreadyClaimed`.  The code has no such error
and no create-once constraint on the claim account: it unconditionally
overwrites `claim.vaa_time`, so after a successful finalization an identical
second call succeeds again (returning the very same post-state). -/
theorem post_vaa_double_finalize_succeeds :
    post_vaa 0
        ⟨⟨0, [], 0, 0, 3⟩, ⟨[List.replicate 32 1], List.replicate 32 9, 0⟩,
          List.replicate 32 8, PostedMessage.default, ⟨List.replicate 32 9, 0⟩, 0, 0⟩
        100 ⟨2, 0, [], 55, 1, 1, List.replicate 32 4, [3, 3]⟩ =
      .ok ⟨⟨0, [], 0, 0, 3⟩, ⟨[List.replicate 32 1], List.replicate 32 9, 0⟩,
            List.replicate 32 8,
            { PostedMessage.default with
              vaa_version := 2, vaa_time := 55,
              vaa_signature_account := List.replicate 32 8 },
            ⟨List.replicate 32 9, 100⟩, 0, 0⟩ ∧
    post_vaa 0
        ⟨⟨0, [], 0, 0, 3⟩, ⟨[List.replicate 32 1], List.replicate 32 9, 0⟩,
          List.replicate 32 8,
          { PostedMessage.default with
            vaa_version := 2, vaa_time := 55,
            vaa_signature_account := List.replicate 32 8 },
          ⟨List.replicate 32 9, 100⟩, 0, 0⟩
        100 ⟨2, 0, [], 55, 1, 1, List.replicate 32 4, [3, 3]⟩ =
      .ok ⟨⟨0, [], 0, 0, 3⟩, ⟨[List.replicate 32 1], List.replicate 32 9, 0⟩,
            List.replicate 32 8,
            { PostedMessage.default with
              vaa_version := 2, vaa_time := 55,
              vaa_signature_account := List.replicate 32 8 },
            ⟨List.replicate 32 9, 100⟩, 0, 0⟩ := by
  decide

/-- Full characterization of a successful `post_vaa`: which fields of the
post-state are written and which are carried over from the pre-state. -/
theorem post_vaa_ok_shape (minBal : Nat) (s : PostVAAState) (now : Int) (vaa : PostVAAData)
    (s2 : PostVAAState) (h : post_vaa minBal s now vaa = .ok s2) :
    s2.message.vaa_version = vaa.version ∧
    s2.message.vaa_time = vaa.timestamp ∧
    s2.message.vaa_signature_account = s.sig_info_key ∧
    s2.message.submission_time = s.message.submission_time ∧
    s2.message.nonce = s.message.nonce ∧
    s2.message.emitter_chain = s.message.emitter_chain ∧
    s2.message.emitter_address = s.message.emitter_address ∧
    s2.message.payload = s.message.payload ∧
    s2.claim.hash = s.claim.hash ∧
    s2.claim.vaa_time = u32OfI64 now ∧
    s2.guardian_set = s.guardian_set ∧
    s2.sig_info = s.sig_info ∧
    s2.sig_info_key = s.sig_info_key ∧
    (VAA_TX_FEE < s.state_lamports - minBal →
      s2.state_lamports = s.state_lamports - VAA_TX_FEE ∧
      s2.payer_lamports = s.payer_lamports + VAA_TX_FEE) ∧
    (¬ VAA_TX_FEE < s.state_lamports - minBal →
      s2.state_lamports = s.state_lamports ∧
      s2.payer_lamports = s.payer_lamports) := by
  unfold post_vaa at h
  rcases hca : check_active s.guardian_set now with e | u
  · rw [hca] at h
    simp at h
  rw [hca] at h
  rcases hcv : check_valid_sigs s.guardian_set s.sig_info with e | u2
  · rw [hcv] at h
    simp at h
  rw [hcv] at h
  rw [show check_integrity s.sig_info vaa = .ok () from rfl] at h
  simp only [] at h
  by_cases hq : signatureCount s.sig_info.signatures
      < requiredConsensusCount s.guardian_set.len_keys
  · rw [if_pos hq] at h
    simp at h
  · rw [if_neg hq] at h
    by_cases hf : VAA_TX_FEE < s.state_lamports - minBal
    · rw [if_pos hf] at h
      unfold transfer_sol at h
      by_cases h1 : s.state_lamports < VAA_TX_FEE
      · rw [if_pos h1] at h
        simp at h
      · rw [if_neg h1] at h
        by_cases h2 : 2 ^ 64 ≤ s.payer_lamports + VAA_TX_FEE
        · rw [if_pos h2] at h
          simp at h
        · rw [if_neg h2] at h
          injection h with h
          subst h
          refine ⟨rfl, rfl, rfl, rfl, rfl, rfl, rfl, rfl, rfl, rfl, rfl, rfl, rfl,
            fun _ => ⟨rfl, rfl⟩, fun hc => absurd hf hc⟩
    · rw [if_neg hf] at h
      injection h with h
      subst h
      refine ⟨rfl, rfl, rfl, rfl, rfl, rfl, rfl, rfl, rfl, rfl, rfl, rfl, rfl,
        fun hc => absurd hc hf, fun _ => ⟨rfl, rfl⟩⟩

/-- C6 (amended): on a successful `post_vaa` the message record receives
`vaa_version = vaa.version`, `vaa_time = vaa.timestamp` (the timestamp field
of the supplied VAA, not the oracle time of the call), and the signature-set
account key; the claim record's time is set to `now` (as u32); and the fixed
`VAA_TX_FEE` is refunded from the bridge treasury to the payer exactly when
the treasury balance minus the reserve exceeds the fee. -/
theorem post_vaa_success_writes (minBal : Nat) (s : PostVAAState) (now : Int)
    (vaa : PostVAAData) (s2 : PostVAAState) (h : post_vaa minBal s now vaa = .ok s2) :
    s2.message.vaa_version = vaa.version ∧
    s2.message.vaa_time = vaa.timestamp ∧
    s2.message.vaa_signature_account = s.sig_info_key ∧
    s2.claim.vaa_time = u32OfI64 now ∧
    (VAA_TX_FEE < s.state_lamports - minBal →
      s2.state_lamports = s.state_lamports - VAA_TX_FEE ∧
      s2.payer_lamports = s.payer_lamports + VAA_TX_FEE) ∧
    (¬ VAA_TX_FEE < s.state_lamports - minBal →
      s2.state_lamports = s.state_lamports ∧
      s2.payer_lamports = s.payer_lamports) := by
  obtain ⟨h1, h2, h3, _, _, _, _, _, _, h10, _, _, _, h14, h15⟩ :=
    post_vaa_ok_shape minBal s now vaa s2 h
  exact ⟨h1, h2, h3, h10, h14, h15⟩

/-- C6 witness: a concrete successful call (treasury below the reserve, so
no refund) exhibiting the written fields. -/
theorem post_vaa_success_writes_witness :
    (⟨⟨0, [], 0, 0, 0⟩, ⟨[], List.replicate 32 0, 0⟩, List.replicate 32 8,
        { PostedMessage.default with
          vaa_version := 1, vaa_time := 7,
          vaa_signature_account := List.replicate 32 8 },
        ⟨List.replicate 32 0, 99⟩, 0, 0⟩ : PostVAAState).message.vaa_time
      = (⟨1, 0, [], 7, 0, 0, [], []⟩ : PostVAAData).timestamp ∧
    (⟨⟨0, [], 0, 0, 0⟩, ⟨[], List.replicate 32 0, 0⟩, List.replicate 32 8,
        { PostedMessage.default with
          vaa_version := 1, vaa_time := 7,
          vaa_signature_account := List.replicate 32 8 },
        ⟨List.replicate 32 0, 99⟩, 0, 0⟩ : PostVAAState).claim.vaa_time = u32OfI64 99 :=
  have h := post_vaa_success_writes 0
    ⟨⟨0, [], 0, 0, 0⟩, ⟨[], List.replicate 32 0, 0⟩, List.replicate 32 8,
      PostedMessage.default, ⟨List.replicate 32 0, 0⟩, 0, 0⟩
    99 ⟨1, 0, [], 7, 0, 0, [], []⟩
    ⟨⟨0, [], 0, 0, 0⟩, ⟨[], List.replicate 32 0, 0⟩, List.replicate 32 8,
      { PostedMessage.default with
        vaa_version := 1, vaa_time := 7,
        vaa_signature_account := List.replicate 32 8 },
      ⟨List.replicate 32 0, 99⟩, 0, 0⟩
    (by decide)
  ⟨h.2.1, h.2.2.2.1⟩

/-- C6 counterexample: the claim as stated says `vaa_time = now`; in a call
with oracle time 99 and a VAA whose body timestamp is 7, the code stores 7
(the cast of `now` would be 99, and 7 ≠ 99). -/
theorem post_vaa_vaa_time_cex :
    (post_vaa 0
        ⟨⟨0, [], 0, 0, 0⟩, ⟨[], List.replicate 32 0, 0⟩, List.replicate 32 8,
          PostedMessage.default, ⟨List.replicate 32 0, 0⟩, 0, 0⟩
        99 ⟨1, 0, [], 7, 0, 0, [], []⟩).toOption.map (fun t => t.message.vaa_time)
      = some 7 ∧
    u32OfI64 99 = 99 ∧ (7 : Nat) ≠ 99 := by
  decide

/-- C10: on a successful `post_vaa` the only claim-record field written is
its timestamp; the 32-byte `hash` field keeps its prior value (the record
never learns which message hash was claimed). -/
theorem post_vaa_claim_frame (minBal : Nat) (s : PostVAAState) (now : Int)
    (vaa : PostVAAData) (s2 : PostVAAState) (h : post_vaa minBal s now vaa = .ok s2) :
    s2.claim.hash = s.claim.hash ∧ s2.claim.vaa_time = u32OfI64 now := by
  obtain ⟨_, _, _, _, _, _, _, _, h9, h10, _⟩ := post_vaa_ok_shape minBal s now vaa s2 h
  exact ⟨h9, h10⟩

/-- C10 witness: in a concrete successful call the pre-state claim hash
(all 5 bytes) is carried over unchanged. -/
theorem post_vaa_claim_frame_witness :
    (⟨⟨0, [], 0, 0, 0⟩, ⟨[], List.replicate 32 0, 0⟩, List.replicate 32 8,
        { PostedMessage.default with
          vaa_version := 1, vaa_time := 7,
          vaa_signature_account := List.replicate 32 8 },
        ⟨List.replicate 32 5, 42⟩, 0, 0⟩ : PostVAAState).claim.hash
      = List.replicate 32 5 ∧
    (⟨⟨0, [], 0, 0, 0⟩, ⟨[], List.replicate 32 0, 0⟩, List.replicate 32 8,
        { PostedMessage.default with
          vaa_version := 1, vaa_time := 7,
          vaa_signature_account := List.replicate 32 8 },
        ⟨List.replicate 32 5, 42⟩, 0, 0⟩ : PostVAAState).claim.vaa_time = u32OfI64 42 :=
  post_vaa_claim_frame 0
    ⟨⟨0, [], 0, 0, 0⟩, ⟨[], List.replicate 32 0, 0⟩, List.replicate 32 8,
      PostedMessage.default, ⟨List.replicate 32 5, 3⟩, 0, 0⟩
    42 ⟨1, 0, [], 7, 0, 0, [], []⟩
    ⟨⟨0, [], 0, 0, 0⟩, ⟨[], List.replicate 32 0, 0⟩, List.replicate 32 8,
      { PostedMessage.default with
        vaa_version := 1, vaa_time := 7,
        vaa_signature_account := List.replicate 32 8 },
      ⟨List.replicate 32 5, 42⟩, 0, 0⟩
    (by decide)

/-- C9 (amended): the `post_vaa` validation pipeline runs in the order
epoch liveness, epoch binding, integrity (computed but incapable of
failing), quorum, short-circuiting on the first failure; there is no replay
stage.  A validation failure returns the corresponding error, and an
erroring instruction leaves every account unchanged (the transactional
execution model of the embedding). -/
theorem post_vaa_pipeline (minBal : Nat) (s : PostVAAState) (now : Int) (vaa : PostVAAData) :
    (∀ e, check_active s.guardian_set now = .error e →
      post_vaa minBal s now vaa = .error e) ∧
    (check_active s.guardian_set now = .ok () →
      ∀ e, check_valid_sigs s.guardian_set s.sig_info = .error e →
        post_vaa minBal s now vaa = .error e) ∧
    (∀ (sg : Signatures) (va : PostVAAData), check_integrity sg va = .ok ()) ∧
    (check_active s.guardian_set now = .ok () →
      check_valid_sigs s.guardian_set s.sig_info = .ok () →
      signatureCount s.sig_info.signatures < requiredConsensusCount s.guardian_set.len_keys →
      post_vaa minBal s now vaa = .error .PostVAAConsensusFailed) := by
  refine ⟨?_, ?_, fun _ _ => rfl, ?_⟩
  · intro e he
    unfold post_vaa
    rw [he]
  · intro ha e he
    unfold post_vaa
    rw [ha, he]
  · intro ha hv hq
    unfold post_vaa
    rw [ha, hv]
    rw [show check_integrity s.sig_info vaa = .ok () from rfl]
    simp only [if_pos hq]

/-- C9 witness: three concrete states exercising each short-circuit exit of
the pipeline, via the pipeline theorem. -/
theorem post_vaa_pipeline_witness :
    post_vaa 0
        ⟨⟨0, [], 0, 4, 0⟩, ⟨[], List.replicate 32 0, 0⟩, List.replicate 32 0,
          PostedMessage.default, ⟨List.replicate 32 0, 0⟩, 0, 0⟩
        10 ⟨0, 0, [], 0, 0, 0, [], []⟩ = .error .PostVAAGuardianSetExpired ∧
    post_vaa 0
        ⟨⟨0, [], 0, 0, 0⟩, ⟨[], List.replicate 32 0, 7⟩, List.replicate 32 0,
          PostedMessage.default, ⟨List.replicate 32 0, 0⟩, 0, 0⟩
        10 ⟨0, 0, [], 0, 0, 0, [], []⟩ = .error .PostVAAGuardianSetMismatch ∧
    post_vaa 0
        ⟨⟨0, [], 0, 0, 20⟩, ⟨[], List.replicate 32 0, 0⟩, List.replicate 32 0,
          PostedMessage.default, ⟨List.replicate 32 0, 0⟩, 0, 0⟩
        10 ⟨0, 0, [], 0, 0, 0, [], []⟩ = .error .PostVAAConsensusFailed :=
  ⟨(post_vaa_pipeline 0
      ⟨⟨0, [], 0, 4, 0⟩, ⟨[], List.replicate 32 0, 0⟩, List.replicate 32 0,
        PostedMessage.default, ⟨List.replicate 32 0, 0⟩, 0, 0⟩
      10 ⟨0, 0, [], 0, 0, 0, [], []⟩).1 .PostVAAGuardianSetExpired (by decide),
   (post_vaa_pipeline 0
      ⟨⟨0, [], 0, 0, 0⟩, ⟨[], List.replicate 32 0, 7⟩, List.replicate 32 0,
        PostedMessage.default, ⟨List.replicate 32 0, 0⟩, 0, 0⟩
      10 ⟨0, 0, [], 0, 0, 0, [], []⟩).2.1 (by decide) .PostVAAGuardianSetMismatch (by decide),
   (post_vaa_pipeline 0
      ⟨⟨0, [], 0, 0, 20⟩, ⟨[], List.replicate 32 0, 0⟩, List.replicate 32 0,
        PostedMessage.default, ⟨List.replicate 32 0, 0⟩, 0, 0⟩
      10 ⟨0, 0, [], 0, 0, 0, [], []⟩).2.2.2 (by decide) (by decide) (by decide)⟩

/-- C9 counterexample: the claim as stated includes a replay-protection
stage after quorum; the code has none — with every other stage passing, a
message already finalized at oracle time 200 finalizes again instead of
failing at a replay stage. -/
theorem post_vaa_pipeline_cex :
    post_vaa 0
        ⟨⟨3, [], 0, 0, 1⟩, ⟨[], List.replicate 32 6, 3⟩, List.replicate 32 2,
          PostedMessage.default, ⟨List.replicate 32 6, 0⟩, 0, 0⟩
        200 ⟨4, 3, [], 77, 2, 2, List.replicate 32 5, [9]⟩ =
      .ok ⟨⟨3, [], 0, 0, 1⟩, ⟨[], List.replicate 32 6, 3⟩, List.replicate 32 2,
            { PostedMessage.default with
              vaa_version := 4, vaa_time := 77,
              vaa_signature_account := List.replicate 32 2 },
            ⟨List.replicate 32 6, 200⟩, 0, 0⟩ ∧
    post_vaa 0
        ⟨⟨3, [], 0, 0, 1⟩, ⟨[], List.replicate 32 6, 3⟩, List.replicate 32 2,
          { PostedMessage.default with
            vaa_version := 4, vaa_time := 77,
            vaa_signature_account := List.replicate 32 2 },
          ⟨List.replicate 32 6, 200⟩, 0, 0⟩
        200 ⟨4, 3, [], 77, 2, 2, List.replicate 32 5, [9]⟩ =
      .ok ⟨⟨3, [], 0, 0, 1⟩, ⟨[], List.replicate 32 6, 3⟩, List.replicate 32 2,
            { PostedMessage.default with
              vaa_version := 4, vaa_time := 77,
              vaa_signature_account := List.replicate 32 2 },
            ⟨List.replicate 32 6, 200⟩, 0, 0⟩ := by
  decide

theorem keccakRound_length (st : List Nat) (rc : Nat) : (keccakRound st rc).length = 25 := by
  simp [keccakRound, iotaStep, chi, List.length_set, List.length_map, List.length_range]

theorem foldl_keccakRound_length (l : List Nat) (st : List Nat) (h : st.length = 25) :
    (l.foldl keccakRound st).length = 25 := by
  induction l generalizing st with
  | nil => exact h
  | cons a t ih => exact ih _ (keccakRound_length _ _)

theorem keccakF_length (st : List Nat) (h : st.length = 25) : (keccakF st).length = 25 :=
  foldl_keccakRound_length roundConstants st h

theorem xorBlock_length (st block : List Nat) : (xorBlock st block).length = 25 := by
  simp [xorBlock]

theorem absorb_length (blocks : List (List Nat)) (st : List Nat) (h : st.length = 25) :
    (blocks.foldl (fun st b => keccakF (xorBlock st b)) st).length = 25 := by
  induction blocks generalizing st with
  | nil => exact h
  | cons b bs ih => exact ih _ (keccakF_length _ (xorBlock_length _ _))

theorem keccak256_length (m : List Nat) : (keccak256 m).length = 32 := by
  unfold keccak256
  have h25 := absorb_length (toChunks 135 (padKeccak m)) (List.replicate 25 0)
    (List.length_replicate 25 0)
  rw [List.length_flatten, List.map_map]
  have hlen : (List.length ∘ wordToBytesLE) = fun _ : Nat => 8 := by
    funext w
    rfl
  rw [hlen]
  rw [List.map_const']
  rw [List.sum_replicate, List.length_take, h25]
  simp

/-- C7: the canonical hash is Keccak-256 of exactly timestamp (4 bytes
big-endian), nonce (4 bytes big-endian), emitter_chain (1 byte), the
emitter address, and the payload, concatenated with no length prefixes; the
digest is 32 bytes and depends only on those five body fields (identical
inputs give identical digests). -/
theorem canonical_hash_layout (vaa : PostVAAData) :
    serializeBody vaa =
      u32BE vaa.timestamp ++ u32BE vaa.nonce ++ [vaa.emitter_chain % 256] ++
        vaa.emitter_address ++ vaa.payload ∧
    bodyHash vaa = keccak256 (u32BE vaa.timestamp ++ u32BE vaa.nonce ++
      [vaa.emitter_chain % 256] ++ vaa.emitter_address ++ vaa.payload) ∧
    (bodyHash vaa).length = 32 ∧
    (∀ v2 : PostVAAData, vaa.timestamp = v2.timestamp → vaa.nonce = v2.nonce →
      vaa.emitter_chain = v2.emitter_chain → vaa.emitter_address = v2.emitter_address →
      vaa.payload = v2.payload → bodyHash vaa = bodyHash v2) := by
  have hser : serializeBody vaa =
      u32BE vaa.timestamp ++ u32BE vaa.nonce ++ [vaa.emitter_chain % 256] ++
        vaa.emitter_address ++ vaa.payload := by
    simp [serializeBody, writeBytes, writeU8, writeU32BE, List.append_assoc]
  refine ⟨hser, ?_, keccak256_length _, ?_⟩
  · rw [bodyHash, hser]
  · intro v2 h1 h2 h3 h4 h5
    unfold bodyHash serializeBody writeBytes writeU8 writeU32BE
    rw [h1, h2, h3, h4, h5]

/-- C7 witness: the digest at a concrete body, compared across two VAAs that
differ only in header fields (version and guardian-set index), via the
layout theorem. -/
theorem canonical_hash_layout_witness :
    bodyHash ⟨0, 0, [], 1, 2, 3, [4], [5]⟩ = bodyHash ⟨9, 8, [], 1, 2, 3, [4], [5]⟩ :=
  (canonical_hash_layout ⟨0, 0, [], 1, 2, 3, [4], [5]⟩).2.2.2
    ⟨9, 8, [], 1, 2, 3, [4], [5]⟩ rfl rfl rfl rfl rfl

/-- C8: with the current instruction index in range, the fee check of
`publish_message` fails exactly when there is no preceding instruction, or
the preceding instruction is not a system-program instruction with exactly
two accounts, or its second account (the recipient) is not the bridge
treasury, or its data is not the 12-byte little-endian `(kind = 2, amount)`
transfer encoding, or the decoded amount is below the required fee; the
required fee is the constant `size_of(SignatureState) + size_of(ClaimedVAA)
+ VAA_TX_FEE`; and a fee-check error is returned by `publish_message`
unchanged. -/
theorem check_fees_spec (instrs : List Instruction) (cur : Nat) (bridgeKey : List Nat)
    (h1 : cur ≤ 256) (h2 : cur ≤ instrs.length) :
    calculate_transfer_fee = sizeOfSignatureState + sizeOfClaimedVAA + VAA_TX_FEE ∧
    (check_fees instrs cur bridgeKey calculate_transfer_fee ≠ .ok () ↔
      (cur = 0 ∨
        (instrs.getD (cur - 1) ⟨[], [], []⟩).program_id ≠ systemProgramId ∨
        (instrs.getD (cur - 1) ⟨[], [], []⟩).accounts.length ≠ 2 ∨
        (instrs.getD (cur - 1) ⟨[], [], []⟩).accounts.getD 1 [] ≠ bridgeKey ∨
        (instrs.getD (cur - 1) ⟨[], [], []⟩).data.length ≠ 12 ∨
        (instrs.getD (cur - 1) ⟨[], [], []⟩).data.take 4 ≠ [2, 0, 0, 0] ∨
        u64FromLEBytes ((instrs.getD (cur - 1) ⟨[], [], []⟩).data.drop 4)
          < calculate_transfer_fee)) ∧
    (∀ (ctx : PublishContext) (mn : Nat) (payload : List Nat) (e : ProgErr),
      check_fees ctx.instrs ctx.current_index ctx.bridge_key calculate_transfer_fee
        = .error e →
      publish_message ctx mn payload = .error e) := by
  refine ⟨rfl, ?_, ?_⟩
  · by_cases h0 : cur = 0
    · simp [check_fees, h0]
    · have hm : (cur - 1) % 256 = cur - 1 := Nat.mod_eq_of_lt (by omega)
      have hidx : cur - 1 < instrs.length := by omega
      have hget : instrs[(cur - 1) % 256]? = some (instrs.getD (cur - 1) ⟨[], [], []⟩) := by
        rw [hm, List.getElem?_eq_getElem hidx, List.getD_eq_getElem instrs ⟨[], [], []⟩ hidx]
      generalize instrs.getD (cur - 1) ⟨[], [], []⟩ = ix at hget ⊢
      simp only [check_fees, if_neg h0, hget]
      simp only [h0, false_or]
      by_cases c1 : ix.program_id = systemProgramId
      · by_cases c2 : ix.accounts.length = 2
        · have hb1 : 1 < ix.accounts.length := by omega
          by_cases c3 : ix.accounts.getD 1 [] = bridgeKey <;>
            rw [List.getD_eq_getElem ix.accounts [] hb1] at c3
          · by_cases c4 : ix.data.length = 12
            · by_cases c5 : ix.data.take 4 = [2, 0, 0, 0]
              · by_cases c6 : u64FromLEBytes (ix.data.drop 4) < calculate_transfer_fee
                · simp [c1, c2, c3, c4, c5, c6]
                · simp [c1, c2, c3, c4, c5, c6]
              · simp [c1, c2, c3, c4, c5]
            · simp [c1, c2, c3, c4]
          · simp [c1, c2, c3]
        · simp [c1, c2]
      · simp [c1]
  · intro ctx mn payload e he
    unfold publish_message
    rw [he]

/-- C8 witness: a preceding well-formed system transfer of exactly the
required fee (181372 lamports, little-endian `7C C4 02 00 ...`) to the
bridge key passes the fee check, via the fee specification. -/
theorem check_fees_spec_witness :
    check_fees
      [⟨systemProgramId, [List.replicate 32 7, List.replicate 32 2],
         [2, 0, 0, 0, 124, 196, 2, 0, 0, 0, 0, 0]⟩]
      1 (List.replicate 32 2) calculate_transfer_fee = .ok () := by
  have h := (check_fees_spec
    [⟨systemProgramId, [List.replicate 32 7, List.replicate 32 2],
       [2, 0, 0, 0, 124, 196, 2, 0, 0, 0, 0, 0]⟩]
    1 (List.replicate 32 2) (by decide) (by decide)).2.1
  by_contra hc
  exact absurd (h.mp hc) (by decide)

end Wormhole
